import Mathlib

/-!
Verification of the item-category lifecycle service and the profit-and-loss
statement shaping of the bigcapital accounting application.

The stateful service `ItemCategoriesService` is embedded shallowly: the
per-tenant database (item categories, items, chart-of-accounts rows) becomes
an explicit `TenantState`, each public service method becomes a function from
a state and its arguments to an `OpResult` carrying the outcome
(`Except ServiceError`), the resulting state, and the ordered trace of
persistence mutations and domain-event dispatches the method performed.
JavaScript truthiness of optional numeric ids is modelled by `truthyId` on
`Option Nat` (absent/null and the number 0 are both falsy).
-/

deriving instance DecidableEq for Except

namespace Bigcapital

/- Error type constants of the item-categories service (the ERRORS object
in ItemCategoriesService.ts), including the COST_ACCOUNT_NOT_FOUMD typo
present in the source. -/
namespace ERRORS

def ITEM_CATEGORIES_NOT_FOUND : String := "ITEM_CATEGORIES_NOT_FOUND"

def CATEGORY_NAME_EXISTS : String := "CATEGORY_NAME_EXISTS"

def CATEGORY_NOT_FOUND : String := "CATEGORY_NOT_FOUND"

def COST_ACCOUNT_NOT_FOUMD : String := "COST_ACCOUNT_NOT_FOUMD"

def COST_ACCOUNT_NOT_COGS : String := "COST_ACCOUNT_NOT_COGS"

def SELL_ACCOUNT_NOT_INCOME : String := "SELL_ACCOUNT_NOT_INCOME"

def SELL_ACCOUNT_NOT_FOUND : String := "SELL_ACCOUNT_NOT_FOUND"

def INVENTORY_ACCOUNT_NOT_FOUND : String := "INVENTORY_ACCOUNT_NOT_FOUND"

def INVENTORY_ACCOUNT_NOT_INVENTORY : String := "INVENTORY_ACCOUNT_NOT_INVENTORY"

def CATEGORY_HAVE_ITEMS : String := "CATEGORY_HAVE_ITEMS"

end ERRORS

/-- `new ServiceError(errorType)` as thrown by the service: the service passes
only the error-type constant to the constructor, no message and no payload. -/
structure ServiceError where
  errorType : String
deriving DecidableEq, Repr

/-- Account root type constants used by the service
(`ACCOUNT_ROOT_TYPE.INCOME` / `.EXPENSE` from `data/AccountTypes`). -/
def ACCOUNT_ROOT_TYPE_INCOME : String := "income"

def ACCOUNT_ROOT_TYPE_EXPENSE : String := "expense"

/-- Account type constant `ACCOUNT_TYPE.INVENTORY` from `data/AccountTypes`. -/
def ACCOUNT_TYPE_INVENTORY : String := "inventory"

/-- Modelled from the spec: the `Account` model and `data/AccountTypes` are not
under the provided sources; per the spec, accounts carry a root-type
classification (income, expense, ...) and an account type, and the service
checks `isRootType` / `isAccountType` against the constants above. -/
structure Account where
  id : Nat
  rootType : String
  accountType : String
deriving DecidableEq, Repr

/-- Modelled from the spec: `account.isRootType(t)` holds when the account
root-type classification equals `t`. -/
def Account.isRootType (a : Account) (t : String) : Bool :=
  a.rootType == t

/-- Modelled from the spec: `account.isAccountType(t)` holds when the account
type equals `t`. -/
def Account.isAccountType (a : Account) (t : String) : Bool :=
  a.accountType == t

/-- A stored item category row (`ItemCategory` model): id, name, the three
nullable account references, and the owning user id. -/
structure ItemCategory where
  id : Nat
  name : String
  sellAccountId : Option Nat
  costAccountId : Option Nat
  inventoryAccountId : Option Nat
  userId : Nat
deriving DecidableEq, Repr

/-- A stored item row: its id, its other columns (represented by `name`), and
the nullable `category_id` back-reference to an item category. -/
structure Item where
  id : Nat
  name : String
  categoryId : Option Nat
deriving DecidableEq, Repr

/-- The per-tenant database state the service reads and mutates.
`nextCategoryId` models the auto-increment id the insert query assigns. -/
structure TenantState where
  categories : List ItemCategory
  items : List Item
  accounts : List Account
  nextCategoryId : Nat
deriving DecidableEq, Repr

/-- The item-category DTO (`IItemCategoryOTD`) submitted to create/edit: a
name and three optional account references. `none` models an absent or null
id; `some 0` models the (falsy) id 0. -/
structure IItemCategoryOTD where
  name : String
  sellAccountId : Option Nat
  costAccountId : Option Nat
  inventoryAccountId : Option Nat
deriving DecidableEq, Repr

/-- The authenticated user (`ISystemUser`) performing the request. -/
structure ISystemUser where
  id : Nat
deriving DecidableEq, Repr

/-- JavaScript truthiness of an optional numeric id: `undefined`, `null` and
`0` are falsy, every other number is truthy. -/
def truthyId : Option Nat → Bool
  | none => false
  | some n => n != 0

/-- The model object produced by `transformOTDToObject`: the DTO spread
together with the authorized user id. -/
structure ItemCategoryObj where
  name : String
  sellAccountId : Option Nat
  costAccountId : Option Nat
  inventoryAccountId : Option Nat
  userId : Nat
deriving DecidableEq, Repr

/-- `transformOTDToObject(itemCategoryOTD, authorizedUser)`: spreads the DTO
and overwrites `userId` with the authorized user id. -/
def transformOTDToObject (itemCategoryOTD : IItemCategoryOTD)
    (authorizedUser : ISystemUser) : ItemCategoryObj :=
  { name := itemCategoryOTD.name
    sellAccountId := itemCategoryOTD.sellAccountId
    costAccountId := itemCategoryOTD.costAccountId
    inventoryAccountId := itemCategoryOTD.inventoryAccountId
    userId := authorizedUser.id }

/-- `ItemCategory.query().findById(id)` on the tenant database. -/
def findCategoryById (s : TenantState) (itemCategoryId : Nat) :
    Option ItemCategory :=
  s.categories.find? (fun c => c.id == itemCategoryId)

/-- `accountRepository.findOneById(id)` on the tenant database. -/
def findAccountById (s : TenantState) (accountId : Nat) : Option Account :=
  s.accounts.find? (fun a => a.id == accountId)

/-- The `onBuild` filter of `validateCategoryNameUniquiness`:
`if (notCategoryId) query.whereNot('id', notCategoryId)` — rows other than
`notCategoryId` pass, and when `notCategoryId` is falsy every row passes. -/
def notCategoryFilter (notCategoryId : Option Nat) (c : ItemCategory) : Bool :=
  match notCategoryId with
  | some nid => if nid != 0 then c.id != nid else true
  | none => true

/-- `validateCategoryNameUniquiness`: looks for a category whose `name` column
equals the submitted name exactly, filtered by `notCategoryFilter`, and throws
`CATEGORY_NAME_EXISTS` when one is found. -/
def validateCategoryNameUniquiness (s : TenantState) (categoryName : String)
    (notCategoryId : Option Nat) : Except ServiceError Unit :=
  match s.categories.find? (fun c =>
      c.name == categoryName && notCategoryFilter notCategoryId c) with
  | some _ => .error ⟨ERRORS.CATEGORY_NAME_EXISTS⟩
  | none => .ok ()

/-- `validateSellAccount`: the referenced account must exist
(`SELL_ACCOUNT_NOT_FOUND`) and be of the income root type
(`SELL_ACCOUNT_NOT_INCOME`). -/
def validateSellAccount (s : TenantState) (sellAccountId : Nat) :
    Except ServiceError Unit :=
  match findAccountById s sellAccountId with
  | none => .error ⟨ERRORS.SELL_ACCOUNT_NOT_FOUND⟩
  | some foundAccount =>
    if !(foundAccount.isRootType ACCOUNT_ROOT_TYPE_INCOME) then
      .error ⟨ERRORS.SELL_ACCOUNT_NOT_INCOME⟩
    else
      .ok ()

/-- `validateCostAccount`: the referenced account must exist
(`COST_ACCOUNT_NOT_FOUMD`) and be of the expense root type
(`COST_ACCOUNT_NOT_COGS`). -/
def validateCostAccount (s : TenantState) (costAccountId : Nat) :
    Except ServiceError Unit :=
  match findAccountById s costAccountId with
  | none => .error ⟨ERRORS.COST_ACCOUNT_NOT_FOUMD⟩
  | some foundAccount =>
    if !(foundAccount.isRootType ACCOUNT_ROOT_TYPE_EXPENSE) then
      .error ⟨ERRORS.COST_ACCOUNT_NOT_COGS⟩
    else
      .ok ()

/-- `validateInventoryAccount`: the referenced account must exist
(`INVENTORY_ACCOUNT_NOT_FOUND`) and be of the inventory account type
(`INVENTORY_ACCOUNT_NOT_INVENTORY`). -/
def validateInventoryAccount (s : TenantState) (inventoryAccountId : Nat) :
    Except ServiceError Unit :=
  match findAccountById s inventoryAccountId with
  | none => .error ⟨ERRORS.INVENTORY_ACCOUNT_NOT_FOUND⟩
  | some foundAccount =>
    if !(foundAccount.isAccountType ACCOUNT_TYPE_INVENTORY) then
      .error ⟨ERRORS.INVENTORY_ACCOUNT_NOT_INVENTORY⟩
    else
      .ok ()

/-- The truthiness-guarded sell-account check of create/edit:
`if (itemCategoryOTD.sellAccountId) await this.validateSellAccount(...)`. -/
def checkSellIfTruthy (s : TenantState) (itemCategoryOTD : IItemCategoryOTD) :
    Except ServiceError Unit :=
  match itemCategoryOTD.sellAccountId with
  | some sellAccountId =>
    if sellAccountId != 0 then validateSellAccount s sellAccountId else .ok ()
  | none => .ok ()

/-- The truthiness-guarded cost-account check of create/edit. -/
def checkCostIfTruthy (s : TenantState) (itemCategoryOTD : IItemCategoryOTD) :
    Except ServiceError Unit :=
  match itemCategoryOTD.costAccountId with
  | some costAccountId =>
    if costAccountId != 0 then validateCostAccount s costAccountId else .ok ()
  | none => .ok ()

/-- The truthiness-guarded inventory-account check of create/edit. -/
def checkInventoryIfTruthy (s : TenantState)
    (itemCategoryOTD : IItemCategoryOTD) : Except ServiceError Unit :=
  match itemCategoryOTD.inventoryAccountId with
  | some inventoryAccountId =>
    if inventoryAccountId != 0 then
      validateInventoryAccount s inventoryAccountId
    else
      .ok ()
  | none => .ok ()

/-- The domain events of the item-category entity
(`events.itemCategory.onCreated` and friends). -/
inductive ItemCategoryEvent where
  | onCreated
  | onEdited
  | onDeleted
  | onBulkDeleted
deriving DecidableEq, Repr

/-- One observable effect of a service method, in program order: a persistence
mutation against the tenant database, or a domain-event dispatch. -/
inductive Action where
  | insertCategory (c : ItemCategory)
  | patchCategory (categoryId : Nat) (patched : ItemCategory)
  | clearItemsCategory (categoryIds : List Nat)
  | deleteCategoryRows (categoryIds : List Nat)
  | dispatch (e : ItemCategoryEvent)
deriving DecidableEq, Repr

/-- Whether an action is a domain-event dispatch. -/
def Action.isDispatch : Action → Bool
  | .dispatch _ => true
  | _ => false

/-- Outcome of one service method call: the returned value or thrown
`ServiceError`, the tenant state after the call, and the ordered trace of
mutations and dispatches performed before returning or throwing. -/
structure OpResult (α : Type) where
  result : Except ServiceError α
  state : TenantState
  trace : List Action
deriving Repr

/-- `ItemCategory.query().insert(...)`: appends a new row with the
auto-increment id and returns it. -/
def insertCategory (s : TenantState) (obj : ItemCategoryObj) :
    TenantState × ItemCategory :=
  let c : ItemCategory :=
    { id := s.nextCategoryId
      name := obj.name
      sellAccountId := obj.sellAccountId
      costAccountId := obj.costAccountId
      inventoryAccountId := obj.inventoryAccountId
      userId := obj.userId }
  ({ s with categories := s.categories ++ [c]
            nextCategoryId := s.nextCategoryId + 1 },
   c)

/-- The patch `patchAndFetchById` applies to a stored row: every DTO column
and the `userId` column are overwritten. -/
def applyPatch (c : ItemCategory) (obj : ItemCategoryObj) : ItemCategory :=
  { c with name := obj.name
           sellAccountId := obj.sellAccountId
           costAccountId := obj.costAccountId
           inventoryAccountId := obj.inventoryAccountId
           userId := obj.userId }

/-- `newItemCategory`: validates name uniqueness, then each truthy account
reference, then inserts the transformed object and dispatches `onCreated`. -/
def newItemCategory (s : TenantState) (itemCategoryOTD : IItemCategoryOTD)
    (authorizedUser : ISystemUser) : OpResult ItemCategory :=
  match validateCategoryNameUniquiness s itemCategoryOTD.name none with
  | .error e => ⟨.error e, s, []⟩
  | .ok _ =>
    match checkSellIfTruthy s itemCategoryOTD with
    | .error e => ⟨.error e, s, []⟩
    | .ok _ =>
      match checkCostIfTruthy s itemCategoryOTD with
      | .error e => ⟨.error e, s, []⟩
      | .ok _ =>
        match checkInventoryIfTruthy s itemCategoryOTD with
        | .error e => ⟨.error e, s, []⟩
        | .ok _ =>
          let itemCategoryObj := transformOTDToObject itemCategoryOTD
            authorizedUser
          let inserted := insertCategory s itemCategoryObj
          ⟨.ok inserted.2, inserted.1,
           [.insertCategory inserted.2, .dispatch .onCreated]⟩

/-- `editItemCategory`: fetches the row or throws `CATEGORY_NOT_FOUND`,
validates name uniqueness excluding the edited row, then each truthy account
reference, then patches the row and dispatches `onEdited`. -/
def editItemCategory (s : TenantState) (itemCategoryId : Nat)
    (itemCategoryOTD : IItemCategoryOTD) (authorizedUser : ISystemUser) :
    OpResult ItemCategory :=
  match findCategoryById s itemCategoryId with
  | none => ⟨.error ⟨ERRORS.CATEGORY_NOT_FOUND⟩, s, []⟩
  | some oldItemCategory =>
    match validateCategoryNameUniquiness s itemCategoryOTD.name
        (some itemCategoryId) with
    | .error e => ⟨.error e, s, []⟩
    | .ok _ =>
      match checkSellIfTruthy s itemCategoryOTD with
      | .error e => ⟨.error e, s, []⟩
      | .ok _ =>
        match checkCostIfTruthy s itemCategoryOTD with
        | .error e => ⟨.error e, s, []⟩
        | .ok _ =>
          match checkInventoryIfTruthy s itemCategoryOTD with
          | .error e => ⟨.error e, s, []⟩
          | .ok _ =>
            let itemCategoryObj := transformOTDToObject itemCategoryOTD
              authorizedUser
            let itemCategory := applyPatch oldItemCategory itemCategoryObj
            let s1 : TenantState :=
              { s with categories := s.categories.map (fun c =>
                  if c.id == itemCategoryId then applyPatch c itemCategoryObj
                  else c) }
            ⟨.ok itemCategory, s1,
             [.patchCategory itemCategoryId itemCategory,
              .dispatch .onEdited]⟩

/-- The per-row effect of
`Item.query().whereIn('category_id', ids).patch(\x7b category_id: null \x7d)`:
clears the back-reference of an item whose `category_id` is among `ids`
(a SQL `IN` never matches a NULL `category_id`). -/
def clearItemCategory (ids : List Nat) (it : Item) : Item :=
  match it.categoryId with
  | some cid =>
    if ids.contains cid then { it with categoryId := none } else it
  | none => it

/-- `unassociateItemsWithCategories` applies the patch above to every item
row of the tenant. -/
def unassociateItemsWithCategories (s : TenantState) (ids : List Nat) :
    TenantState :=
  { s with items := s.items.map (clearItemCategory ids) }

/-- `deleteItemCategory`: fetches the row or throws `CATEGORY_NOT_FOUND`,
clears item associations, deletes the row, then dispatches `onDeleted`. -/
def deleteItemCategory (s : TenantState) (itemCategoryId : Nat)
    (authorizedUser : ISystemUser) : OpResult Unit :=
  match findCategoryById s itemCategoryId with
  | none => ⟨.error ⟨ERRORS.CATEGORY_NOT_FOUND⟩, s, []⟩
  | some _ =>
    let s1 := unassociateItemsWithCategories s [itemCategoryId]
    let s2 : TenantState :=
      { s1 with categories :=
          s1.categories.filter (fun c => !(c.id == itemCategoryId)) }
    ⟨.ok (), s2,
     [.clearItemsCategory [itemCategoryId],
      .deleteCategoryRows [itemCategoryId],
      .dispatch .onDeleted]⟩

/-- `getItemCategoriesOrThrowError`: loads the rows whose id is among the
requested ids and throws `ITEM_CATEGORIES_NOT_FOUND` when the lodash
`difference` of requested ids minus stored ids is non-empty. The thrown error
carries only the error-type constant. -/
def getItemCategoriesOrThrowError (s : TenantState)
    (itemCategoriesIds : List Nat) : Except ServiceError Unit :=
  let itemCategories :=
    s.categories.filter (fun c => itemCategoriesIds.contains c.id)
  let storedItemCategoriesIds := itemCategories.map (fun category => category.id)
  let notFoundCategories :=
    itemCategoriesIds.filter (fun i => !(storedItemCategoriesIds.contains i))
  if notFoundCategories.length > 0 then
    .error ⟨ERRORS.ITEM_CATEGORIES_NOT_FOUND⟩
  else
    .ok ()

/-- `deleteItemCategories` (bulk delete): throws if any requested id is not
stored, otherwise clears item associations of all requested categories,
deletes the rows, then dispatches `onBulkDeleted`. -/
def deleteItemCategories (s : TenantState) (itemCategoriesIds : List Nat)
    (authorizedUser : ISystemUser) : OpResult Unit :=
  match getItemCategoriesOrThrowError s itemCategoriesIds with
  | .error e => ⟨.error e, s, []⟩
  | .ok _ =>
    let s1 := unassociateItemsWithCategories s itemCategoriesIds
    let s2 : TenantState :=
      { s1 with categories :=
          s1.categories.filter (fun c => !(itemCategoriesIds.contains c.id)) }
    ⟨.ok (), s2,
     [.clearItemsCategory itemCategoriesIds,
      .deleteCategoryRows itemCategoriesIds,
      .dispatch .onBulkDeleted]⟩

/-- `IProfitLossSheetTotal` from `interfaces/ProfitLossSheet.ts`: a money
amount with its formatted rendering and currency code. -/
structure IProfitLossSheetTotal where
  amount : Int
  formattedAmount : String
  currencyCode : String
deriving DecidableEq, Repr

/-- `IProfitLossSheetAccount`: one account row of a statement section. -/
structure IProfitLossSheetAccount where
  id : Nat
  index : Nat
  name : String
  code : String
  parentAccountId : Option Nat
  hasTransactions : Bool
  total : IProfitLossSheetTotal
deriving DecidableEq, Repr

/-- `IProfitLossSheetAccountsSection`: a titled list of accounts with the
section total. -/
structure IProfitLossSheetAccountsSection where
  sectionTitle : String
  accounts : List IProfitLossSheetAccount
  total : IProfitLossSheetTotal
deriving DecidableEq, Repr

/-- `IProfitLossSheetTotalSection`: a derived total-only section. -/
structure IProfitLossSheetTotalSection where
  total : IProfitLossSheetTotal
deriving DecidableEq, Repr

/-- `IProfitLossSheetStatement`: the four accounts sections and the three
derived totals. -/
structure IProfitLossSheetStatement where
  income : IProfitLossSheetAccountsSection
  costOfSales : IProfitLossSheetAccountsSection
  expenses : IProfitLossSheetAccountsSection
  otherExpenses : IProfitLossSheetAccountsSection
  netIncome : IProfitLossSheetTotalSection
  operatingProfit : IProfitLossSheetTotalSection
  grossProfit : IProfitLossSheetTotalSection
deriving DecidableEq, Repr

/-- Sum of the account totals of a section. -/
def sectionTotalAmount (accounts : List IProfitLossSheetAccount) : Int :=
  (accounts.map (fun a => a.total.amount)).sum

/-- Modelled from the spec: the profit-and-loss computation service is not
among the provided sources (only its interface is); per the spec, each
section total is the sum of its account totals, and the derived totals are
gross profit = income − cost of sales, operating profit = gross profit −
expenses, net income = operating profit − other expenses, computed fresh on
read. Formatted renderings are out of scope and left empty. -/
def computeProfitLossStatement (currencyCode : String)
    (incomeAccounts costOfSalesAccounts expensesAccounts
      otherExpensesAccounts : List IProfitLossSheetAccount) :
    IProfitLossSheetStatement :=
  let incomeTotal := sectionTotalAmount incomeAccounts
  let costOfSalesTotal := sectionTotalAmount costOfSalesAccounts
  let expensesTotal := sectionTotalAmount expensesAccounts
  let otherExpensesTotal := sectionTotalAmount otherExpensesAccounts
  let grossProfitTotal := incomeTotal - costOfSalesTotal
  let operatingProfitTotal := grossProfitTotal - expensesTotal
  let netIncomeTotal := operatingProfitTotal - otherExpensesTotal
  { income := ⟨"Income", incomeAccounts, ⟨incomeTotal, "", currencyCode⟩⟩
    costOfSales :=
      ⟨"Cost of sales", costOfSalesAccounts,
       ⟨costOfSalesTotal, "", currencyCode⟩⟩
    expenses := ⟨"Expenses", expensesAccounts,
      ⟨expensesTotal, "", currencyCode⟩⟩
    otherExpenses :=
      ⟨"Other expenses", otherExpensesAccounts,
       ⟨otherExpensesTotal, "", currencyCode⟩⟩
    netIncome := ⟨⟨netIncomeTotal, "", currencyCode⟩⟩
    operatingProfit := ⟨⟨operatingProfitTotal, "", currencyCode⟩⟩
    grossProfit := ⟨⟨grossProfitTotal, "", currencyCode⟩⟩ }

/-! ### Helper lemmas about the validators -/

lemma uniq_error_eq {s : TenantState} {n : String} {nid : Option Nat}
    {e : ServiceError}
    (h : validateCategoryNameUniquiness s n nid = .error e) :
    e = ⟨ERRORS.CATEGORY_NAME_EXISTS⟩ := by
  unfold validateCategoryNameUniquiness at h
  split at h
  · cases h; rfl
  · cases h

lemma uniq_none_error_iff (s : TenantState) (n : String) :
    validateCategoryNameUniquiness s n none =
      .error ⟨ERRORS.CATEGORY_NAME_EXISTS⟩ ↔
      ∃ c ∈ s.categories, c.name = n := by
  unfold validateCategoryNameUniquiness
  constructor
  · intro h
    split at h
    next c hf =>
      refine ⟨c, List.mem_of_find?_eq_some hf, ?_⟩
      have hp := List.find?_some hf
      simp [notCategoryFilter] at hp
      exact hp
    next => cases h
  · rintro ⟨c, hc, hn⟩
    split
    next => rfl
    next hf =>
      exfalso
      have := List.find?_eq_none.mp hf c hc
      simp [notCategoryFilter, hn] at this

lemma uniq_some_error_iff (s : TenantState) (n : String) {nid : Nat}
    (hnid : nid ≠ 0) :
    validateCategoryNameUniquiness s n (some nid) =
      .error ⟨ERRORS.CATEGORY_NAME_EXISTS⟩ ↔
      ∃ c ∈ s.categories, c.id ≠ nid ∧ c.name = n := by
  unfold validateCategoryNameUniquiness
  constructor
  · intro h
    split at h
    next c hf =>
      have hp := List.find?_some hf
      simp [notCategoryFilter, hnid] at hp
      exact ⟨c, List.mem_of_find?_eq_some hf, hp.2, hp.1⟩
    next => cases h
  · rintro ⟨c, hc, hne, hn⟩
    split
    next => rfl
    next hf =>
      exfalso
      have := List.find?_eq_none.mp hf c hc
      simp [notCategoryFilter, hnid, hn] at this
      exact hne this

lemma uniq_cases (s : TenantState) (n : String) (nid : Option Nat) :
    validateCategoryNameUniquiness s n nid = .ok () ∨
      validateCategoryNameUniquiness s n nid =
        .error ⟨ERRORS.CATEGORY_NAME_EXISTS⟩ := by
  unfold validateCategoryNameUniquiness
  split
  · right; rfl
  · left; rfl

lemma validateSellAccount_error_cases {s : TenantState} {aid : Nat}
    {e : ServiceError} (h : validateSellAccount s aid = .error e) :
    e = ⟨ERRORS.SELL_ACCOUNT_NOT_FOUND⟩ ∨
      e = ⟨ERRORS.SELL_ACCOUNT_NOT_INCOME⟩ := by
  unfold validateSellAccount at h
  split at h
  · cases h; left; rfl
  · split at h
    · cases h; right; rfl
    · cases h

lemma validateCostAccount_error_cases {s : TenantState} {aid : Nat}
    {e : ServiceError} (h : validateCostAccount s aid = .error e) :
    e = ⟨ERRORS.COST_ACCOUNT_NOT_FOUMD⟩ ∨
      e = ⟨ERRORS.COST_ACCOUNT_NOT_COGS⟩ := by
  unfold validateCostAccount at h
  split at h
  · cases h; left; rfl
  · split at h
    · cases h; right; rfl
    · cases h

lemma validateInventoryAccount_error_cases {s : TenantState} {aid : Nat}
    {e : ServiceError} (h : validateInventoryAccount s aid = .error e) :
    e = ⟨ERRORS.INVENTORY_ACCOUNT_NOT_FOUND⟩ ∨
      e = ⟨ERRORS.INVENTORY_ACCOUNT_NOT_INVENTORY⟩ := by
  unfold validateInventoryAccount at h
  split at h
  · cases h; left; rfl
  · split at h
    · cases h; right; rfl
    · cases h

lemma checkSell_error_cases {s : TenantState} {otd : IItemCategoryOTD}
    {e : ServiceError} (h : checkSellIfTruthy s otd = .error e) :
    e = ⟨ERRORS.SELL_ACCOUNT_NOT_FOUND⟩ ∨
      e = ⟨ERRORS.SELL_ACCOUNT_NOT_INCOME⟩ := by
  unfold checkSellIfTruthy at h
  split at h
  · split at h
    · exact validateSellAccount_error_cases h
    · cases h
  · cases h

lemma checkCost_error_cases {s : TenantState} {otd : IItemCategoryOTD}
    {e : ServiceError} (h : checkCostIfTruthy s otd = .error e) :
    e = ⟨ERRORS.COST_ACCOUNT_NOT_FOUMD⟩ ∨
      e = ⟨ERRORS.COST_ACCOUNT_NOT_COGS⟩ := by
  unfold checkCostIfTruthy at h
  split at h
  · split at h
    · exact validateCostAccount_error_cases h
    · cases h
  · cases h

lemma checkInventory_error_cases {s : TenantState} {otd : IItemCategoryOTD}
    {e : ServiceError} (h : checkInventoryIfTruthy s otd = .error e) :
    e = ⟨ERRORS.INVENTORY_ACCOUNT_NOT_FOUND⟩ ∨
      e = ⟨ERRORS.INVENTORY_ACCOUNT_NOT_INVENTORY⟩ := by
  unfold checkInventoryIfTruthy at h
  split at h
  · split at h
    · exact validateInventoryAccount_error_cases h
    · cases h
  · cases h

lemma checkSell_not_truthy {otd : IItemCategoryOTD}
    (h : truthyId otd.sellAccountId = false) (s : TenantState) :
    checkSellIfTruthy s otd = .ok () := by
  unfold checkSellIfTruthy
  unfold truthyId at h
  split
  next a heq =>
    rw [heq] at h
    simp only [bne_iff_ne, ne_eq, decide_not, Bool.not_eq_false,
      decide_eq_true_eq] at h
    simp [h]
  next => rfl

lemma checkCost_not_truthy {otd : IItemCategoryOTD}
    (h : truthyId otd.costAccountId = false) (s : TenantState) :
    checkCostIfTruthy s otd = .ok () := by
  unfold checkCostIfTruthy
  unfold truthyId at h
  split
  next a heq =>
    rw [heq] at h
    simp only [bne_iff_ne, ne_eq, decide_not, Bool.not_eq_false,
      decide_eq_true_eq] at h
    simp [h]
  next => rfl

lemma checkInventory_not_truthy {otd : IItemCategoryOTD}
    (h : truthyId otd.inventoryAccountId = false) (s : TenantState) :
    checkInventoryIfTruthy s otd = .ok () := by
  unfold checkInventoryIfTruthy
  unfold truthyId at h
  split
  next a heq =>
    rw [heq] at h
    simp only [bne_iff_ne, ne_eq, decide_not, Bool.not_eq_false,
      decide_eq_true_eq] at h
    simp [h]
  next => rfl

/-! ### Case-analysis lemmas for the service methods -/

lemma newItemCategory_cases (s : TenantState) (otd : IItemCategoryOTD)
    (u : ISystemUser) :
    (∃ e, newItemCategory s otd u = ⟨.error e, s, []⟩) ∨
      (newItemCategory s otd u =
        ⟨.ok (insertCategory s (transformOTDToObject otd u)).2,
         (insertCategory s (transformOTDToObject otd u)).1,
         [.insertCategory (insertCategory s (transformOTDToObject otd u)).2,
          .dispatch .onCreated]⟩ ∧
        validateCategoryNameUniquiness s otd.name none = .ok () ∧
        checkSellIfTruthy s otd = .ok () ∧
        checkCostIfTruthy s otd = .ok () ∧
        checkInventoryIfTruthy s otd = .ok ()) := by
  unfold newItemCategory
  cases hu : validateCategoryNameUniquiness s otd.name none with
  | error e => exact Or.inl ⟨e, rfl⟩
  | ok a =>
    cases hs : checkSellIfTruthy s otd with
    | error e => exact Or.inl ⟨e, rfl⟩
    | ok b =>
      cases hc : checkCostIfTruthy s otd with
      | error e => exact Or.inl ⟨e, rfl⟩
      | ok c =>
        cases hi : checkInventoryIfTruthy s otd with
        | error e => exact Or.inl ⟨e, rfl⟩
        | ok d => exact Or.inr ⟨rfl, rfl, rfl, rfl, rfl⟩

lemma editItemCategory_cases (s : TenantState) (itemCategoryId : Nat)
    (otd : IItemCategoryOTD) (u : ISystemUser) :
    (∃ e, editItemCategory s itemCategoryId otd u = ⟨.error e, s, []⟩) ∨
      (∃ old, findCategoryById s itemCategoryId = some old ∧
        editItemCategory s itemCategoryId otd u =
          ⟨.ok (applyPatch old (transformOTDToObject otd u)),
           { s with categories := s.categories.map (fun c =>
               if c.id == itemCategoryId then
                 applyPatch c (transformOTDToObject otd u)
               else c) },
           [.patchCategory itemCategoryId
              (applyPatch old (transformOTDToObject otd u)),
            .dispatch .onEdited]⟩ ∧
        validateCategoryNameUniquiness s otd.name (some itemCategoryId) =
          .ok ()) := by
  unfold editItemCategory
  cases hf : findCategoryById s itemCategoryId with
  | none => exact Or.inl ⟨⟨ERRORS.CATEGORY_NOT_FOUND⟩, rfl⟩
  | some old =>
    cases hu : validateCategoryNameUniquiness s otd.name
        (some itemCategoryId) with
    | error e => exact Or.inl ⟨e, rfl⟩
    | ok a =>
      cases hs : checkSellIfTruthy s otd with
      | error e => exact Or.inl ⟨e, rfl⟩
      | ok b =>
        cases hc : checkCostIfTruthy s otd with
        | error e => exact Or.inl ⟨e, rfl⟩
        | ok c =>
          cases hi : checkInventoryIfTruthy s otd with
          | error e => exact Or.inl ⟨e, rfl⟩
          | ok d => exact Or.inr ⟨old, rfl, rfl, rfl⟩

lemma getItemCategories_error_eq {s : TenantState} {ids : List Nat}
    {e : ServiceError} (h : getItemCategoriesOrThrowError s ids = .error e) :
    e = ⟨ERRORS.ITEM_CATEGORIES_NOT_FOUND⟩ := by
  simp only [getItemCategoriesOrThrowError] at h
  split at h
  · cases h; rfl
  · cases h

lemma deleteItemCategory_cases (s : TenantState) (itemCategoryId : Nat)
    (u : ISystemUser) :
    (findCategoryById s itemCategoryId = none ∧
      deleteItemCategory s itemCategoryId u =
        ⟨.error ⟨ERRORS.CATEGORY_NOT_FOUND⟩, s, []⟩) ∨
      ((findCategoryById s itemCategoryId).isSome = true ∧
        deleteItemCategory s itemCategoryId u =
          ⟨.ok (),
           { unassociateItemsWithCategories s [itemCategoryId] with
              categories :=
                (unassociateItemsWithCategories s
                    [itemCategoryId]).categories.filter
                  (fun c => !(c.id == itemCategoryId)) },
           [.clearItemsCategory [itemCategoryId],
            .deleteCategoryRows [itemCategoryId],
            .dispatch .onDeleted]⟩) := by
  unfold deleteItemCategory
  cases hf : findCategoryById s itemCategoryId with
  | none => exact Or.inl ⟨rfl, rfl⟩
  | some c => exact Or.inr ⟨rfl, rfl⟩

lemma deleteItemCategories_cases (s : TenantState) (ids : List Nat)
    (u : ISystemUser) :
    (getItemCategoriesOrThrowError s ids =
        .error ⟨ERRORS.ITEM_CATEGORIES_NOT_FOUND⟩ ∧
      deleteItemCategories s ids u =
        ⟨.error ⟨ERRORS.ITEM_CATEGORIES_NOT_FOUND⟩, s, []⟩) ∨
      (getItemCategoriesOrThrowError s ids = .ok () ∧
        deleteItemCategories s ids u =
          ⟨.ok (),
           { unassociateItemsWithCategories s ids with
              categories :=
                (unassociateItemsWithCategories s ids).categories.filter
                  (fun c => !(ids.contains c.id)) },
           [.clearItemsCategory ids, .deleteCategoryRows ids,
            .dispatch .onBulkDeleted]⟩) := by
  unfold deleteItemCategories
  cases hg : getItemCategoriesOrThrowError s ids with
  | error e =>
    have he := getItemCategories_error_eq hg
    subst he
    exact Or.inl ⟨rfl, rfl⟩
  | ok a => exact Or.inr ⟨rfl, rfl⟩

lemma forall₂_map_self {α β : Type} (f : α → β) (R : α → β → Prop)
    (l : List α) (h : ∀ a ∈ l, R a (f a)) :
    List.Forall₂ R l (l.map f) := by
  induction l with
  | nil => simp
  | cons x xs ih =>
    simp only [List.map_cons, List.forall₂_cons]
    exact ⟨h x (by simp), ih (fun a ha => h a (by simp [ha]))⟩

lemma getItemCategories_error_of_missing {s : TenantState} {ids : List Nat}
    (h : ∃ i ∈ ids, ∀ c ∈ s.categories, c.id ≠ i) :
    getItemCategoriesOrThrowError s ids =
      .error ⟨ERRORS.ITEM_CATEGORIES_NOT_FOUND⟩ := by
  obtain ⟨i, hi, hnc⟩ := h
  have hmem : i ∈ ids.filter (fun j =>
      !(((s.categories.filter (fun c => ids.contains c.id)).map
          (fun category => category.id)).contains j)) :=
    List.mem_filter.mpr ⟨hi, by
      simp
      intro x hx hxids
      exact hnc x hx⟩
  have hlen : 0 < (ids.filter (fun j =>
      !(((s.categories.filter (fun c => ids.contains c.id)).map
          (fun category => category.id)).contains j))).length :=
    List.length_pos.mpr (List.ne_nil_of_mem hmem)
  simp only [getItemCategoriesOrThrowError]
  rw [if_pos hlen]

lemma newItemCategory_error_sources {s : TenantState} {otd : IItemCategoryOTD}
    {u : ISystemUser} {e : ServiceError}
    (h : (newItemCategory s otd u).result = .error e) :
    validateCategoryNameUniquiness s otd.name none = .error e ∨
      checkSellIfTruthy s otd = .error e ∨
      checkCostIfTruthy s otd = .error e ∨
      checkInventoryIfTruthy s otd = .error e := by
  unfold newItemCategory at h
  split at h
  next e1 heq =>
    simp at h
    exact Or.inl (h ▸ heq)
  next a heq =>
    split at h
    next e1 heq2 =>
      simp at h
      exact Or.inr (Or.inl (h ▸ heq2))
    next b heq2 =>
      split at h
      next e1 heq3 =>
        simp at h
        exact Or.inr (Or.inr (Or.inl (h ▸ heq3)))
      next c heq3 =>
        split at h
        next e1 heq4 =>
          simp at h
          exact Or.inr (Or.inr (Or.inr (h ▸ heq4)))
        next d heq4 => simp at h

lemma editItemCategory_error_sources {s : TenantState} {cid : Nat}
    {otd : IItemCategoryOTD} {u : ISystemUser} {e : ServiceError}
    (h : (editItemCategory s cid otd u).result = .error e) :
    e = ⟨ERRORS.CATEGORY_NOT_FOUND⟩ ∨
      validateCategoryNameUniquiness s otd.name (some cid) = .error e ∨
      checkSellIfTruthy s otd = .error e ∨
      checkCostIfTruthy s otd = .error e ∨
      checkInventoryIfTruthy s otd = .error e := by
  unfold editItemCategory at h
  split at h
  next heq =>
    simp at h
    exact Or.inl h.symm
  next old heq =>
    split at h
    next e1 heq2 =>
      simp at h
      exact Or.inr (Or.inl (h ▸ heq2))
    next a heq2 =>
      split at h
      next e1 heq3 =>
        simp at h
        exact Or.inr (Or.inr (Or.inl (h ▸ heq3)))
      next b heq3 =>
        split at h
        next e1 heq4 =>
          simp at h
          exact Or.inr (Or.inr (Or.inr (Or.inl (h ▸ heq4))))
        next c heq4 =>
          split at h
          next e1 heq5 =>
            simp at h
            exact Or.inr (Or.inr (Or.inr (Or.inr (h ▸ heq5))))
          next d heq5 => simp at h

lemma newItemCategory_result_of_uniq_error {s : TenantState}
    {otd : IItemCategoryOTD} {e : ServiceError} (u : ISystemUser)
    (h : validateCategoryNameUniquiness s otd.name none = .error e) :
    (newItemCategory s otd u).result = .error e := by
  simp [newItemCategory, h]

lemma newItemCategory_result_of_sell_error {s : TenantState}
    {otd : IItemCategoryOTD} {e : ServiceError} (u : ISystemUser)
    (h1 : validateCategoryNameUniquiness s otd.name none = .ok ())
    (h2 : checkSellIfTruthy s otd = .error e) :
    (newItemCategory s otd u).result = .error e := by
  simp [newItemCategory, h1, h2]

lemma newItemCategory_result_of_cost_error {s : TenantState}
    {otd : IItemCategoryOTD} {e : ServiceError} (u : ISystemUser)
    (h1 : validateCategoryNameUniquiness s otd.name none = .ok ())
    (h2 : checkSellIfTruthy s otd = .ok ())
    (h3 : checkCostIfTruthy s otd = .error e) :
    (newItemCategory s otd u).result = .error e := by
  simp [newItemCategory, h1, h2, h3]

lemma newItemCategory_result_of_inventory_error {s : TenantState}
    {otd : IItemCategoryOTD} {e : ServiceError} (u : ISystemUser)
    (h1 : validateCategoryNameUniquiness s otd.name none = .ok ())
    (h2 : checkSellIfTruthy s otd = .ok ())
    (h3 : checkCostIfTruthy s otd = .ok ())
    (h4 : checkInventoryIfTruthy s otd = .error e) :
    (newItemCategory s otd u).result = .error e := by
  simp [newItemCategory, h1, h2, h3, h4]

lemma newItemCategory_result_of_all_ok {s : TenantState}
    {otd : IItemCategoryOTD} (u : ISystemUser)
    (h1 : validateCategoryNameUniquiness s otd.name none = .ok ())
    (h2 : checkSellIfTruthy s otd = .ok ())
    (h3 : checkCostIfTruthy s otd = .ok ())
    (h4 : checkInventoryIfTruthy s otd = .ok ()) :
    (newItemCategory s otd u).result =
      .ok (insertCategory s (transformOTDToObject otd u)).2 := by
  simp [newItemCategory, h1, h2, h3, h4]

lemma editItemCategory_result_of_uniq_error {s : TenantState} {cid : Nat}
    {otd : IItemCategoryOTD} {old : ItemCategory} {e : ServiceError}
    (u : ISystemUser) (hf : findCategoryById s cid = some old)
    (h : validateCategoryNameUniquiness s otd.name (some cid) = .error e) :
    (editItemCategory s cid otd u).result = .error e := by
  simp [editItemCategory, hf, h]

lemma editItemCategory_result_of_sell_error {s : TenantState} {cid : Nat}
    {otd : IItemCategoryOTD} {old : ItemCategory} {e : ServiceError}
    (u : ISystemUser) (hf : findCategoryById s cid = some old)
    (h1 : validateCategoryNameUniquiness s otd.name (some cid) = .ok ())
    (h2 : checkSellIfTruthy s otd = .error e) :
    (editItemCategory s cid otd u).result = .error e := by
  simp [editItemCategory, hf, h1, h2]

lemma editItemCategory_result_of_cost_error {s : TenantState} {cid : Nat}
    {otd : IItemCategoryOTD} {old : ItemCategory} {e : ServiceError}
    (u : ISystemUser) (hf : findCategoryById s cid = some old)
    (h1 : validateCategoryNameUniquiness s otd.name (some cid) = .ok ())
    (h2 : checkSellIfTruthy s otd = .ok ())
    (h3 : checkCostIfTruthy s otd = .error e) :
    (editItemCategory s cid otd u).result = .error e := by
  simp [editItemCategory, hf, h1, h2, h3]

lemma editItemCategory_result_of_inventory_error {s : TenantState} {cid : Nat}
    {otd : IItemCategoryOTD} {old : ItemCategory} {e : ServiceError}
    (u : ISystemUser) (hf : findCategoryById s cid = some old)
    (h1 : validateCategoryNameUniquiness s otd.name (some cid) = .ok ())
    (h2 : checkSellIfTruthy s otd = .ok ())
    (h3 : checkCostIfTruthy s otd = .ok ())
    (h4 : checkInventoryIfTruthy s otd = .error e) :
    (editItemCategory s cid otd u).result = .error e := by
  simp [editItemCategory, hf, h1, h2, h3, h4]

lemma editItemCategory_result_of_all_ok {s : TenantState} {cid : Nat}
    {otd : IItemCategoryOTD} {old : ItemCategory} (u : ISystemUser)
    (hf : findCategoryById s cid = some old)
    (h1 : validateCategoryNameUniquiness s otd.name (some cid) = .ok ())
    (h2 : checkSellIfTruthy s otd = .ok ())
    (h3 : checkCostIfTruthy s otd = .ok ())
    (h4 : checkInventoryIfTruthy s otd = .ok ()) :
    (editItemCategory s cid otd u).result =
      .ok (applyPatch old (transformOTDToObject otd u)) := by
  simp [editItemCategory, hf, h1, h2, h3, h4]

lemma clearItemCategory_id (ids : List Nat) (a : Item) :
    (clearItemCategory ids a).id = a.id := by
  unfold clearItemCategory
  split
  · split
    · rfl
    · rfl
  · rfl

lemma clearItemCategory_name (ids : List Nat) (a : Item) :
    (clearItemCategory ids a).name = a.name := by
  unfold clearItemCategory
  split
  · split
    · rfl
    · rfl
  · rfl

lemma clearItemCategory_eq_of_not_mem {ids : List Nat} {a : Item}
    (h : ∀ cid, a.categoryId = some cid → cid ∉ ids) :
    clearItemCategory ids a = a := by
  unfold clearItemCategory
  split
  next cid heq =>
    exact if_neg (fun hcont => h cid heq (List.elem_iff.mp hcont))
  next => rfl

lemma clearItemCategory_clears {ids : List Nat} {a : Item} {cid : Nat}
    (hcid : a.categoryId = some cid) (hm : cid ∈ ids) :
    clearItemCategory ids a = { a with categoryId := none } := by
  unfold clearItemCategory
  simp only [hcid]
  exact if_pos (List.elem_iff.mpr hm)

lemma clearItemCategory_frame (ids : List Nat) (a : Item) :
    a.id = (clearItemCategory ids a).id ∧
      a.name = (clearItemCategory ids a).name ∧
      ((∀ cid, a.categoryId = some cid → cid ∉ ids) →
        clearItemCategory ids a = a) ∧
      (∀ cid, a.categoryId = some cid → cid ∈ ids →
        clearItemCategory ids a = { a with categoryId := none }) :=
  ⟨(clearItemCategory_id ids a).symm, (clearItemCategory_name ids a).symm,
   fun h => clearItemCategory_eq_of_not_mem h,
   fun cid hcid hm => clearItemCategory_clears hcid hm⟩

/-! ### Concrete fixtures for the witness theorems -/

def sampleUser : ISystemUser := ⟨42⟩

def sampleState : TenantState :=
  { categories := [⟨1, "Cars", none, none, none, 7⟩,
      ⟨2, "Bikes", none, none, none, 7⟩]
    items := [⟨1, "wheel", some 1⟩, ⟨2, "seat", some 3⟩, ⟨3, "frame", none⟩]
    accounts := [⟨1, "income", "other-income"⟩, ⟨2, "asset", "inventory"⟩,
      ⟨3, "expense", "cost-of-goods-sold"⟩]
    nextCategoryId := 3 }

def plAccount (i : Nat) (amount : Int) : IProfitLossSheetAccount :=
  ⟨i, i, "", "", none, true, ⟨amount, "", "USD"⟩⟩

/-! ### Claim theorems -/

/-- C5: for every profit-and-loss statement produced from a query, the derived
totals satisfy grossProfit = income total − costOfSales total,
operatingProfit = grossProfit − expenses total, and netIncome =
operatingProfit − otherExpenses total; in particular, income summing to 1000,
cost of sales to 400, expenses to 300 and no other expenses give gross profit
600, operating profit 300 and net income 300. -/
theorem profitLoss_derived_totals :
    (∀ (cc : String)
        (incomeAccounts costAccounts expenseAccounts otherAccounts :
          List IProfitLossSheetAccount),
      let st := computeProfitLossStatement cc incomeAccounts costAccounts
        expenseAccounts otherAccounts
      st.grossProfit.total.amount =
          st.income.total.amount - st.costOfSales.total.amount ∧
        st.operatingProfit.total.amount =
          st.grossProfit.total.amount - st.expenses.total.amount ∧
        st.netIncome.total.amount =
          st.operatingProfit.total.amount - st.otherExpenses.total.amount) ∧
      (let st := computeProfitLossStatement "USD"
        [plAccount 1 600, plAccount 2 400] [plAccount 3 400]
        [plAccount 4 300] []
      st.income.total.amount = 1000 ∧ st.costOfSales.total.amount = 400 ∧
        st.expenses.total.amount = 300 ∧ st.otherExpenses.total.amount = 0 ∧
        st.grossProfit.total.amount = 600 ∧
        st.operatingProfit.total.amount = 300 ∧
        st.netIncome.total.amount = 300) := by
  constructor
  · intro cc ia ca ea oa
    exact ⟨rfl, rfl, rfl⟩
  · refine ⟨?_, ?_, ?_, ?_, ?_, ?_, ?_⟩ <;>
      simp [computeProfitLossStatement, sectionTotalAmount, plAccount]

/-- C8: `unassociateItemsWithCategories` modifies only the `category_id`
column of items: categories and accounts are untouched, the item list keeps
its length (no insertion or removal), every item whose `category_id` is not
among the given ids is unchanged, and every affected item keeps all fields
other than `category_id`. -/
theorem unassociate_items_frame (s : TenantState) (ids : List Nat) :
    (unassociateItemsWithCategories s ids).categories = s.categories ∧
      (unassociateItemsWithCategories s ids).accounts = s.accounts ∧
      (unassociateItemsWithCategories s ids).items.length = s.items.length ∧
      List.Forall₂ (fun old new =>
          old.id = new.id ∧ old.name = new.name ∧
            ((∀ cid, old.categoryId = some cid → cid ∉ ids) → new = old) ∧
            (∀ cid, old.categoryId = some cid → cid ∈ ids →
              new = { old with categoryId := none }))
        s.items (unassociateItemsWithCategories s ids).items := by
  refine ⟨rfl, rfl, by simp [unassociateItemsWithCategories], ?_⟩
  apply forall₂_map_self
  intro a ha
  obtain ⟨h1, h2, h3, h4⟩ := clearItemCategory_frame ids a
  exact ⟨h1, h2, fun hall => h3 hall, fun cid hc hm => h4 cid hc hm⟩

/-- C2: deleting an existing category succeeds, clears the `category_id` of
exactly the items that referenced it (before the category row is removed, as
the mutation trace shows), removes the category row, and deletes no item
row. -/
theorem deleteItemCategory_clears_associations (s : TenantState) (cid : Nat)
    (u : ISystemUser) (hex : (findCategoryById s cid).isSome = true) :
    (deleteItemCategory s cid u).result = .ok () ∧
      (deleteItemCategory s cid u).state.items.length = s.items.length ∧
      List.Forall₂ (fun old new =>
          (old.categoryId = some cid → new = { old with categoryId := none }) ∧
            (old.categoryId ≠ some cid → new = old))
        s.items (deleteItemCategory s cid u).state.items ∧
      (deleteItemCategory s cid u).state.categories =
        s.categories.filter (fun c => !(c.id == cid)) ∧
      (deleteItemCategory s cid u).trace =
        [.clearItemsCategory [cid], .deleteCategoryRows [cid],
         .dispatch .onDeleted] := by
  rcases deleteItemCategory_cases s cid u with ⟨hnone, _⟩ | ⟨_, heq⟩
  · rw [hnone] at hex
    cases hex
  · rw [heq]
    refine ⟨rfl, by simp [unassociateItemsWithCategories], ?_, rfl, rfl⟩
    apply forall₂_map_self
    intro a ha
    obtain ⟨h1, h2, h3, h4⟩ := clearItemCategory_frame [cid] a
    constructor
    · intro hc
      exact h4 cid hc (by simp)
    · intro hc
      apply h3
      intro c0 hc0 hmem
      simp only [List.mem_singleton] at hmem
      subst hmem
      exact hc hc0

/-- Witness for C2 at a concrete state: category 1 of `sampleState` exists. -/
theorem deleteItemCategory_clears_associations_witness :
    (deleteItemCategory sampleState 1 sampleUser).result = .ok () ∧
      (deleteItemCategory sampleState 1 sampleUser).state.items.length =
        sampleState.items.length ∧
      List.Forall₂ (fun old new =>
          (old.categoryId = some 1 → new = { old with categoryId := none }) ∧
            (old.categoryId ≠ some 1 → new = old))
        sampleState.items (deleteItemCategory sampleState 1 sampleUser).state.items ∧
      (deleteItemCategory sampleState 1 sampleUser).state.categories =
        sampleState.categories.filter (fun c => !(c.id == 1)) ∧
      (deleteItemCategory sampleState 1 sampleUser).trace =
        [.clearItemsCategory [1], .deleteCategoryRows [1],
         .dispatch .onDeleted] :=
  deleteItemCategory_clears_associations sampleState 1 sampleUser (by decide)

/-- C10: a successful edit always overwrites the stored `userId` of the
edited category with the id of the user performing the edit (via
`transformOTDToObject`), so the originally recorded owning user is not
preserved across edits. -/
theorem editItemCategory_overwrites_userId (s : TenantState) (cid : Nat)
    (otd : IItemCategoryOTD) (u : ISystemUser) (a : ItemCategory)
    (hok : (editItemCategory s cid otd u).result = .ok a) :
    a.userId = u.id ∧
      ∀ c ∈ (editItemCategory s cid otd u).state.categories,
        c.id = cid → c.userId = u.id := by
  rcases editItemCategory_cases s cid otd u with ⟨e, heq⟩ | ⟨old, hf, heq, _⟩
  · rw [heq] at hok
    cases hok
  · rw [heq] at hok
    simp only [Except.ok.injEq] at hok
    constructor
    · rw [← hok]
      rfl
    · rw [heq]
      intro c hc hcid
      rcases List.mem_map.mp hc with ⟨c0, hc0, rfl⟩
      by_cases hb : (c0.id == cid) = true
      · simp only [hb, if_true]
        rfl
      · simp only [Bool.not_eq_true] at hb
        simp only [hb, Bool.false_eq_true, if_false] at hcid
        rw [hcid] at hb
        simp at hb

/-- Witness for C10: editing category 1 of `sampleState` as user 42 stores
user 42 as the owner even though user 7 created the category. -/
theorem editItemCategory_overwrites_userId_witness :
    (applyPatch ⟨1, "Cars", none, none, none, 7⟩
        (transformOTDToObject ⟨"Vans", none, none, none⟩ sampleUser)).userId =
      sampleUser.id ∧
      ∀ c ∈ (editItemCategory sampleState 1 ⟨"Vans", none, none, none⟩
          sampleUser).state.categories,
        c.id = 1 → c.userId = sampleUser.id :=
  editItemCategory_overwrites_userId sampleState 1 ⟨"Vans", none, none, none⟩
    sampleUser
    (applyPatch ⟨1, "Cars", none, none, none, 7⟩
      (transformOTDToObject ⟨"Vans", none, none, none⟩ sampleUser))
    (by decide)

/-- C9: the sell/cost/inventory account validations run only when the
corresponding id in the payload is truthy; a payload whose account id is 0,
null or undefined skips that validation, so neither create nor edit can raise
the corresponding not-found or role-mismatch error. -/
theorem account_checks_skipped_when_falsy (s : TenantState) (cid : Nat)
    (otd : IItemCategoryOTD) (u : ISystemUser) (e : ServiceError) :
    (truthyId otd.sellAccountId = false →
      ((newItemCategory s otd u).result = .error e ∨
        (editItemCategory s cid otd u).result = .error e) →
      e.errorType ≠ ERRORS.SELL_ACCOUNT_NOT_FOUND ∧
        e.errorType ≠ ERRORS.SELL_ACCOUNT_NOT_INCOME) ∧
      (truthyId otd.costAccountId = false →
        ((newItemCategory s otd u).result = .error e ∨
          (editItemCategory s cid otd u).result = .error e) →
        e.errorType ≠ ERRORS.COST_ACCOUNT_NOT_FOUMD ∧
          e.errorType ≠ ERRORS.COST_ACCOUNT_NOT_COGS) ∧
      (truthyId otd.inventoryAccountId = false →
        ((newItemCategory s otd u).result = .error e ∨
          (editItemCategory s cid otd u).result = .error e) →
        e.errorType ≠ ERRORS.INVENTORY_ACCOUNT_NOT_FOUND ∧
          e.errorType ≠ ERRORS.INVENTORY_ACCOUNT_NOT_INVENTORY) := by
  have hsources : ((newItemCategory s otd u).result = .error e ∨
      (editItemCategory s cid otd u).result = .error e) →
      e = ⟨ERRORS.CATEGORY_NOT_FOUND⟩ ∨
        e = ⟨ERRORS.CATEGORY_NAME_EXISTS⟩ ∨
        checkSellIfTruthy s otd = .error e ∨
        checkCostIfTruthy s otd = .error e ∨
        checkInventoryIfTruthy s otd = .error e := by
    intro h
    rcases h with h | h
    · rcases newItemCategory_error_sources h with h1 | h2 | h3 | h4
      · exact Or.inr (Or.inl (uniq_error_eq h1))
      · exact Or.inr (Or.inr (Or.inl h2))
      · exact Or.inr (Or.inr (Or.inr (Or.inl h3)))
      · exact Or.inr (Or.inr (Or.inr (Or.inr h4)))
    · rcases editItemCategory_error_sources h with h0 | h1 | h2 | h3 | h4
      · exact Or.inl h0
      · exact Or.inr (Or.inl (uniq_error_eq h1))
      · exact Or.inr (Or.inr (Or.inl h2))
      · exact Or.inr (Or.inr (Or.inr (Or.inl h3)))
      · exact Or.inr (Or.inr (Or.inr (Or.inr h4)))
  refine ⟨?_, ?_, ?_⟩
  · intro hfalsy hres
    rcases hsources hres with rfl | rfl | h | h | h
    · exact ⟨by decide, by decide⟩
    · exact ⟨by decide, by decide⟩
    · rw [checkSell_not_truthy hfalsy s] at h
      cases h
    · rcases checkCost_error_cases h with rfl | rfl
      · exact ⟨by decide, by decide⟩
      · exact ⟨by decide, by decide⟩
    · rcases checkInventory_error_cases h with rfl | rfl
      · exact ⟨by decide, by decide⟩
      · exact ⟨by decide, by decide⟩
  · intro hfalsy hres
    rcases hsources hres with rfl | rfl | h | h | h
    · exact ⟨by decide, by decide⟩
    · exact ⟨by decide, by decide⟩
    · rcases checkSell_error_cases h with rfl | rfl
      · exact ⟨by decide, by decide⟩
      · exact ⟨by decide, by decide⟩
    · rw [checkCost_not_truthy hfalsy s] at h
      cases h
    · rcases checkInventory_error_cases h with rfl | rfl
      · exact ⟨by decide, by decide⟩
      · exact ⟨by decide, by decide⟩
  · intro hfalsy hres
    rcases hsources hres with rfl | rfl | h | h | h
    · exact ⟨by decide, by decide⟩
    · exact ⟨by decide, by decide⟩
    · rcases checkSell_error_cases h with rfl | rfl
      · exact ⟨by decide, by decide⟩
      · exact ⟨by decide, by decide⟩
    · rcases checkCost_error_cases h with rfl | rfl
      · exact ⟨by decide, by decide⟩
      · exact ⟨by decide, by decide⟩
    · rw [checkInventory_not_truthy hfalsy s] at h
      cases h

/-- Witness for C9: creating a duplicate-name category whose account ids are
all 0 fails with the name conflict, never with an account error — id 0 is
never checked. -/
theorem account_checks_skipped_when_falsy_witness :
    ServiceError.errorType ⟨ERRORS.CATEGORY_NAME_EXISTS⟩ ≠
        ERRORS.SELL_ACCOUNT_NOT_FOUND ∧
      ServiceError.errorType ⟨ERRORS.CATEGORY_NAME_EXISTS⟩ ≠
        ERRORS.SELL_ACCOUNT_NOT_INCOME :=
  (account_checks_skipped_when_falsy sampleState 1
      ⟨"Cars", some 0, some 0, some 0⟩ sampleUser
      ⟨ERRORS.CATEGORY_NAME_EXISTS⟩).1 (by decide) (Or.inl (by decide))

/-- C6: whenever create, edit, delete or bulk delete raises an error, the
tenant state is exactly as before the call and no mutation or dispatch was
performed: all validations precede any mutation. -/
theorem failures_leave_state_unchanged (s : TenantState) (cid : Nat)
    (ids : List Nat) (otd : IItemCategoryOTD) (u : ISystemUser)
    (e : ServiceError) :
    ((newItemCategory s otd u).result = .error e →
      (newItemCategory s otd u).state = s ∧
        (newItemCategory s otd u).trace = []) ∧
      ((editItemCategory s cid otd u).result = .error e →
        (editItemCategory s cid otd u).state = s ∧
          (editItemCategory s cid otd u).trace = []) ∧
      ((deleteItemCategory s cid u).result = .error e →
        (deleteItemCategory s cid u).state = s ∧
          (deleteItemCategory s cid u).trace = []) ∧
      ((deleteItemCategories s ids u).result = .error e →
        (deleteItemCategories s ids u).state = s ∧
          (deleteItemCategories s ids u).trace = []) := by
  refine ⟨?_, ?_, ?_, ?_⟩
  · intro h
    rcases newItemCategory_cases s otd u with ⟨e1, heq⟩ | ⟨heq, _⟩
    · rw [heq]
      exact ⟨rfl, rfl⟩
    · rw [heq] at h
      simp at h
  · intro h
    rcases editItemCategory_cases s cid otd u with ⟨e1, heq⟩ | ⟨old, hf, heq, _⟩
    · rw [heq]
      exact ⟨rfl, rfl⟩
    · rw [heq] at h
      simp at h
  · intro h
    rcases deleteItemCategory_cases s cid u with ⟨hf, heq⟩ | ⟨hf, heq⟩
    · rw [heq]
      exact ⟨rfl, rfl⟩
    · rw [heq] at h
      simp at h
  · intro h
    rcases deleteItemCategories_cases s ids u with ⟨hg, heq⟩ | ⟨hg, heq⟩
    · rw [heq]
      exact ⟨rfl, rfl⟩
    · rw [heq] at h
      simp at h

/-- Witness for C6: concrete failing calls of all four operations leave
`sampleState` unchanged. -/
theorem failures_leave_state_unchanged_witness :
    ((newItemCategory sampleState ⟨"Cars", none, none, none⟩
          sampleUser).state = sampleState ∧
        (newItemCategory sampleState ⟨"Cars", none, none, none⟩
          sampleUser).trace = []) ∧
      ((editItemCategory sampleState 99 ⟨"Cars", none, none, none⟩
            sampleUser).state = sampleState ∧
        (editItemCategory sampleState 99 ⟨"Cars", none, none, none⟩
          sampleUser).trace = []) ∧
      ((deleteItemCategory sampleState 99 sampleUser).state = sampleState ∧
        (deleteItemCategory sampleState 99 sampleUser).trace = []) ∧
      ((deleteItemCategories sampleState [99] sampleUser).state =
          sampleState ∧
        (deleteItemCategories sampleState [99] sampleUser).trace = []) :=
  ⟨(failures_leave_state_unchanged sampleState 99 [99]
      ⟨"Cars", none, none, none⟩ sampleUser
      ⟨ERRORS.CATEGORY_NAME_EXISTS⟩).1 (by decide),
   (failures_leave_state_unchanged sampleState 99 [99]
      ⟨"Cars", none, none, none⟩ sampleUser
      ⟨ERRORS.CATEGORY_NOT_FOUND⟩).2.1 (by decide),
   (failures_leave_state_unchanged sampleState 99 [99]
      ⟨"Cars", none, none, none⟩ sampleUser
      ⟨ERRORS.CATEGORY_NOT_FOUND⟩).2.2.1 (by decide),
   (failures_leave_state_unchanged sampleState 99 [99]
      ⟨"Cars", none, none, none⟩ sampleUser
      ⟨ERRORS.ITEM_CATEGORIES_NOT_FOUND⟩).2.2.2 (by decide)⟩

/-- C7: every successful create, edit, delete and bulk-delete call dispatches
exactly one domain event of the matching kind, as the last action of the
trace — after every persistence mutation — and a failed call dispatches no
event. -/
theorem events_dispatch_discipline (s : TenantState) (cid : Nat)
    (ids : List Nat) (otd : IItemCategoryOTD) (u : ISystemUser) :
    ((∀ e, (newItemCategory s otd u).result = .error e →
        (newItemCategory s otd u).trace.filter Action.isDispatch = []) ∧
      (∀ c, (newItemCategory s otd u).result = .ok c →
        ∃ ms, (newItemCategory s otd u).trace =
            ms ++ [.dispatch .onCreated] ∧
          ms.filter Action.isDispatch = [])) ∧
      ((∀ e, (editItemCategory s cid otd u).result = .error e →
          (editItemCategory s cid otd u).trace.filter Action.isDispatch =
            []) ∧
        (∀ c, (editItemCategory s cid otd u).result = .ok c →
          ∃ ms, (editItemCategory s cid otd u).trace =
              ms ++ [.dispatch .onEdited] ∧
            ms.filter Action.isDispatch = [])) ∧
      ((∀ e, (deleteItemCategory s cid u).result = .error e →
          (deleteItemCategory s cid u).trace.filter Action.isDispatch = []) ∧
        ((deleteItemCategory s cid u).result = .ok () →
          ∃ ms, (deleteItemCategory s cid u).trace =
              ms ++ [.dispatch .onDeleted] ∧
            ms.filter Action.isDispatch = [])) ∧
      ((∀ e, (deleteItemCategories s ids u).result = .error e →
          (deleteItemCategories s ids u).trace.filter Action.isDispatch =
            []) ∧
        ((deleteItemCategories s ids u).result = .ok () →
          ∃ ms, (deleteItemCategories s ids u).trace =
              ms ++ [.dispatch .onBulkDeleted] ∧
            ms.filter Action.isDispatch = [])) := by
  refine ⟨⟨?_, ?_⟩, ⟨?_, ?_⟩, ⟨?_, ?_⟩, ⟨?_, ?_⟩⟩
  · intro e h
    rcases newItemCategory_cases s otd u with ⟨e1, heq⟩ | ⟨heq, _⟩
    · rw [heq]
      rfl
    · rw [heq] at h
      simp at h
  · intro c h
    rcases newItemCategory_cases s otd u with ⟨e1, heq⟩ | ⟨heq, _⟩
    · rw [heq] at h
      simp at h
    · rw [heq]
      exact ⟨[.insertCategory (insertCategory s
        (transformOTDToObject otd u)).2], rfl, rfl⟩
  · intro e h
    rcases editItemCategory_cases s cid otd u with ⟨e1, heq⟩ |
      ⟨old, hf, heq, _⟩
    · rw [heq]
      rfl
    · rw [heq] at h
      simp at h
  · intro c h
    rcases editItemCategory_cases s cid otd u with ⟨e1, heq⟩ |
      ⟨old, hf, heq, _⟩
    · rw [heq] at h
      simp at h
    · rw [heq]
      exact ⟨[.patchCategory cid (applyPatch old
        (transformOTDToObject otd u))], rfl, rfl⟩
  · intro e h
    rcases deleteItemCategory_cases s cid u with ⟨hf, heq⟩ | ⟨hf, heq⟩
    · rw [heq]
      rfl
    · rw [heq] at h
      simp at h
  · intro h
    rcases deleteItemCategory_cases s cid u with ⟨hf, heq⟩ | ⟨hf, heq⟩
    · rw [heq] at h
      simp at h
    · rw [heq]
      exact ⟨[.clearItemsCategory [cid], .deleteCategoryRows [cid]], rfl, rfl⟩
  · intro e h
    rcases deleteItemCategories_cases s ids u with ⟨hg, heq⟩ | ⟨hg, heq⟩
    · rw [heq]
      rfl
    · rw [heq] at h
      simp at h
  · intro h
    rcases deleteItemCategories_cases s ids u with ⟨hg, heq⟩ | ⟨hg, heq⟩
    · rw [heq] at h
      simp at h
    · rw [heq]
      exact ⟨[.clearItemsCategory ids, .deleteCategoryRows ids], rfl, rfl⟩

/-- Witness for C7: a successful delete of category 1 of `sampleState`
dispatches exactly the `onDeleted` event last, and a failed create (duplicate
name) dispatches nothing. -/
theorem events_dispatch_discipline_witness :
    (∃ ms, (deleteItemCategory sampleState 1 sampleUser).trace =
        ms ++ [.dispatch .onDeleted] ∧
      ms.filter Action.isDispatch = []) ∧
      (newItemCategory sampleState ⟨"Cars", none, none, none⟩
        sampleUser).trace.filter Action.isDispatch = [] :=
  ⟨(events_dispatch_discipline sampleState 1 [1]
      ⟨"Cars", none, none, none⟩ sampleUser).2.2.1.2 (by decide),
   (events_dispatch_discipline sampleState 1 [1]
      ⟨"Cars", none, none, none⟩ sampleUser).1.1
     ⟨ERRORS.CATEGORY_NAME_EXISTS⟩ (by decide)⟩

/-- C4: on create and edit each supplied account reference is validated in
turn: a missing account yields the reference-specific not-found error
(including the `COST_ACCOUNT_NOT_FOUMD` typo), an existing account of the
wrong role yields the reference-specific role-mismatch error, otherwise the
check passes; a truthy payload id routes to the matching validator, and the
first failing check decides the result of the call. -/
theorem account_reference_validation (s : TenantState) (cid : Nat)
    (aid : Nat) (a : Account) (otd : IItemCategoryOTD) (u : ISystemUser)
    (old : ItemCategory) (e : ServiceError) :
    (findAccountById s aid = none →
      validateSellAccount s aid = .error ⟨ERRORS.SELL_ACCOUNT_NOT_FOUND⟩ ∧
        validateCostAccount s aid = .error ⟨ERRORS.COST_ACCOUNT_NOT_FOUMD⟩ ∧
        validateInventoryAccount s aid =
          .error ⟨ERRORS.INVENTORY_ACCOUNT_NOT_FOUND⟩) ∧
      (findAccountById s aid = some a →
        (a.isRootType ACCOUNT_ROOT_TYPE_INCOME = false →
          validateSellAccount s aid =
            .error ⟨ERRORS.SELL_ACCOUNT_NOT_INCOME⟩) ∧
          (a.isRootType ACCOUNT_ROOT_TYPE_INCOME = true →
            validateSellAccount s aid = .ok ()) ∧
          (a.isRootType ACCOUNT_ROOT_TYPE_EXPENSE = false →
            validateCostAccount s aid =
              .error ⟨ERRORS.COST_ACCOUNT_NOT_COGS⟩) ∧
          (a.isRootType ACCOUNT_ROOT_TYPE_EXPENSE = true →
            validateCostAccount s aid = .ok ()) ∧
          (a.isAccountType ACCOUNT_TYPE_INVENTORY = false →
            validateInventoryAccount s aid =
              .error ⟨ERRORS.INVENTORY_ACCOUNT_NOT_INVENTORY⟩) ∧
          (a.isAccountType ACCOUNT_TYPE_INVENTORY = true →
            validateInventoryAccount s aid = .ok ())) ∧
      (otd.sellAccountId = some aid → aid ≠ 0 →
        checkSellIfTruthy s otd = validateSellAccount s aid) ∧
      (otd.costAccountId = some aid → aid ≠ 0 →
        checkCostIfTruthy s otd = validateCostAccount s aid) ∧
      (otd.inventoryAccountId = some aid → aid ≠ 0 →
        checkInventoryIfTruthy s otd = validateInventoryAccount s aid) ∧
      (validateCategoryNameUniquiness s otd.name none = .ok () →
        (checkSellIfTruthy s otd = .error e →
          (newItemCategory s otd u).result = .error e) ∧
          (checkSellIfTruthy s otd = .ok () →
            checkCostIfTruthy s otd = .error e →
            (newItemCategory s otd u).result = .error e) ∧
          (checkSellIfTruthy s otd = .ok () →
            checkCostIfTruthy s otd = .ok () →
            checkInventoryIfTruthy s otd = .error e →
            (newItemCategory s otd u).result = .error e) ∧
          (checkSellIfTruthy s otd = .ok () →
            checkCostIfTruthy s otd = .ok () →
            checkInventoryIfTruthy s otd = .ok () →
            (newItemCategory s otd u).result =
              .ok (insertCategory s (transformOTDToObject otd u)).2)) ∧
      (findCategoryById s cid = some old →
        validateCategoryNameUniquiness s otd.name (some cid) = .ok () →
        (checkSellIfTruthy s otd = .error e →
          (editItemCategory s cid otd u).result = .error e) ∧
          (checkSellIfTruthy s otd = .ok () →
            checkCostIfTruthy s otd = .error e →
            (editItemCategory s cid otd u).result = .error e) ∧
          (checkSellIfTruthy s otd = .ok () →
            checkCostIfTruthy s otd = .ok () →
            checkInventoryIfTruthy s otd = .error e →
            (editItemCategory s cid otd u).result = .error e) ∧
          (checkSellIfTruthy s otd = .ok () →
            checkCostIfTruthy s otd = .ok () →
            checkInventoryIfTruthy s otd = .ok () →
            (editItemCategory s cid otd u).result =
              .ok (applyPatch old (transformOTDToObject otd u)))) := by
  refine ⟨?_, ?_, ?_, ?_, ?_, ?_, ?_⟩
  · intro hf
    exact ⟨by simp [validateSellAccount, hf],
      by simp [validateCostAccount, hf],
      by simp [validateInventoryAccount, hf]⟩
  · intro hf
    refine ⟨?_, ?_, ?_, ?_, ?_, ?_⟩ <;> intro hrole <;>
      simp [validateSellAccount, validateCostAccount,
        validateInventoryAccount, hf, hrole]
  · intro hsid hne
    simp [checkSellIfTruthy, hsid, hne]
  · intro hsid hne
    simp [checkCostIfTruthy, hsid, hne]
  · intro hsid hne
    simp [checkInventoryIfTruthy, hsid, hne]
  · intro h1
    exact ⟨fun h2 => newItemCategory_result_of_sell_error u h1 h2,
      fun h2 h3 => newItemCategory_result_of_cost_error u h1 h2 h3,
      fun h2 h3 h4 => newItemCategory_result_of_inventory_error u h1 h2 h3 h4,
      fun h2 h3 h4 => newItemCategory_result_of_all_ok u h1 h2 h3 h4⟩
  · intro hfind h1
    exact ⟨fun h2 => editItemCategory_result_of_sell_error u hfind h1 h2,
      fun h2 h3 => editItemCategory_result_of_cost_error u hfind h1 h2 h3,
      fun h2 h3 h4 =>
        editItemCategory_result_of_inventory_error u hfind h1 h2 h3 h4,
      fun h2 h3 h4 => editItemCategory_result_of_all_ok u hfind h1 h2 h3 h4⟩

/-- Witness for C4: account 9 of `sampleState` does not exist, account 2
exists but is an asset account, and a create referencing account 2 as sell
account fails with the role-mismatch error. -/
theorem account_reference_validation_witness :
    validateSellAccount sampleState 9 =
        .error ⟨ERRORS.SELL_ACCOUNT_NOT_FOUND⟩ ∧
      validateSellAccount sampleState 2 =
        .error ⟨ERRORS.SELL_ACCOUNT_NOT_INCOME⟩ ∧
      (newItemCategory sampleState ⟨"Trucks", some 2, none, none⟩
        sampleUser).result = .error ⟨ERRORS.SELL_ACCOUNT_NOT_INCOME⟩ :=
  ⟨((account_reference_validation sampleState 1 9 ⟨2, "asset", "inventory"⟩
      ⟨"Trucks", some 2, none, none⟩ sampleUser
      ⟨1, "Cars", none, none, none, 7⟩
      ⟨ERRORS.SELL_ACCOUNT_NOT_INCOME⟩).1 (by decide)).1,
   ((account_reference_validation sampleState 1 2 ⟨2, "asset", "inventory"⟩
      ⟨"Trucks", some 2, none, none⟩ sampleUser
      ⟨1, "Cars", none, none, none, 7⟩
      ⟨ERRORS.SELL_ACCOUNT_NOT_INCOME⟩).2.1 (by decide)).1 (by decide),
   ((account_reference_validation sampleState 1 2 ⟨2, "asset", "inventory"⟩
      ⟨"Trucks", some 2, none, none⟩ sampleUser
      ⟨1, "Cars", none, none, none, 7⟩
      ⟨ERRORS.SELL_ACCOUNT_NOT_INCOME⟩).2.2.2.2.2.1 (by decide)).1
     (by decide)⟩

/-- C1: create raises CATEGORY_NAME_EXISTS iff some stored category of the
tenant has exactly (case-sensitively) the submitted name; edit — on an
existing category, with positive stored ids as the auto-increment assigns —
raises it iff some category other than the edited one has exactly the
submitted name. -/
theorem name_conflict_error_iff (s : TenantState) (cid : Nat)
    (otd : IItemCategoryOTD) (u : ISystemUser) :
    ((newItemCategory s otd u).result =
        .error ⟨ERRORS.CATEGORY_NAME_EXISTS⟩ ↔
      ∃ c ∈ s.categories, c.name = otd.name) ∧
      ((∀ c ∈ s.categories, c.id ≠ 0) →
        (findCategoryById s cid).isSome = true →
        ((editItemCategory s cid otd u).result =
            .error ⟨ERRORS.CATEGORY_NAME_EXISTS⟩ ↔
          ∃ c ∈ s.categories, c.id ≠ cid ∧ c.name = otd.name)) := by
  constructor
  · constructor
    · intro h
      rcases newItemCategory_error_sources h with h1 | h2 | h3 | h4
      · exact (uniq_none_error_iff s otd.name).mp h1
      · rcases checkSell_error_cases h2 with h | h <;> exact absurd h (by decide)
      · rcases checkCost_error_cases h3 with h | h <;> exact absurd h (by decide)
      · rcases checkInventory_error_cases h4 with h | h <;>
          exact absurd h (by decide)
    · intro hex
      exact newItemCategory_result_of_uniq_error u
        ((uniq_none_error_iff s otd.name).mpr hex)
  · intro hwf hex
    rcases Option.isSome_iff_exists.mp hex with ⟨old, hf⟩
    have hmem : old ∈ s.categories := List.mem_of_find?_eq_some hf
    have hid : old.id = cid := by
      have := List.find?_some hf
      simpa using this
    have hcid0 : cid ≠ 0 := hid ▸ hwf old hmem
    constructor
    · intro h
      rcases editItemCategory_error_sources h with h0 | h1 | h2 | h3 | h4
      · exact absurd h0 (by decide)
      · exact (uniq_some_error_iff s otd.name hcid0).mp h1
      · rcases checkSell_error_cases h2 with h | h <;> exact absurd h (by decide)
      · rcases checkCost_error_cases h3 with h | h <;> exact absurd h (by decide)
      · rcases checkInventory_error_cases h4 with h | h <;>
          exact absurd h (by decide)
    · intro hex2
      exact editItemCategory_result_of_uniq_error u hf
        ((uniq_some_error_iff s otd.name hcid0).mpr hex2)

/-- Witness for C1: editing category 1 of `sampleState` to the name of
category 2 raises the name conflict. -/
theorem name_conflict_error_iff_witness :
    (editItemCategory sampleState 1 ⟨"Bikes", none, none, none⟩
      sampleUser).result = .error ⟨ERRORS.CATEGORY_NAME_EXISTS⟩ :=
  ((name_conflict_error_iff sampleState 1 ⟨"Bikes", none, none, none⟩
      sampleUser).2 (by decide) (by decide)).mpr
    ⟨⟨2, "Bikes", none, none, none, 7⟩, by decide, by decide, rfl⟩

/-- C3 counterexample: bulk deletes whose only missing ids are 5 and 7
respectively raise literally the same error value — the constant
`ITEM_CATEGORIES_NOT_FOUND` with no payload — so the raised error does not
report which id was missing, contrary to the claim. -/
theorem deleteItemCategories_error_not_specific :
    (deleteItemCategories sampleState [5] sampleUser).result =
        .error ⟨ERRORS.ITEM_CATEGORIES_NOT_FOUND⟩ ∧
      (deleteItemCategories sampleState [7] sampleUser).result =
        .error ⟨ERRORS.ITEM_CATEGORIES_NOT_FOUND⟩ ∧
      (deleteItemCategories sampleState [5] sampleUser).result =
        (deleteItemCategories sampleState [7] sampleUser).result := by
  decide

/-- C3 amended: a bulk delete whose id list contains at least one id with no
stored category fails entirely with the constant `ITEM_CATEGORIES_NOT_FOUND`
error (which does not identify the missing id); no category row is deleted
and no item association is cleared. -/
theorem deleteItemCategories_missing_id_atomic (s : TenantState)
    (ids : List Nat) (u : ISystemUser)
    (h : ∃ i ∈ ids, ∀ c ∈ s.categories, c.id ≠ i) :
    (deleteItemCategories s ids u).result =
        .error ⟨ERRORS.ITEM_CATEGORIES_NOT_FOUND⟩ ∧
      (deleteItemCategories s ids u).state = s ∧
      (deleteItemCategories s ids u).trace = [] := by
  have hg := getItemCategories_error_of_missing h
  rcases deleteItemCategories_cases s ids u with ⟨hg2, heq⟩ | ⟨hg2, heq⟩
  · rw [heq]
    exact ⟨rfl, rfl, rfl⟩
  · rw [hg] at hg2
    cases hg2

/-- Witness for C3 amended: bulk delete of [1, 5] on `sampleState` (5 is
missing) fails atomically. -/
theorem deleteItemCategories_missing_id_atomic_witness :
    (deleteItemCategories sampleState [1, 5] sampleUser).result =
        .error ⟨ERRORS.ITEM_CATEGORIES_NOT_FOUND⟩ ∧
      (deleteItemCategories sampleState [1, 5] sampleUser).state =
        sampleState ∧
      (deleteItemCategories sampleState [1, 5] sampleUser).trace = [] :=
  deleteItemCategories_missing_id_atomic sampleState [1, 5] sampleUser
    ⟨5, by decide, by decide⟩

end Bigcapital
